import Mathlib

/-!
# Verification of the node-chat relay (socket handler layer)

Shallow embedding of `src/socket/handlers.js` (and, where a claim cites them,
the handler revisions in `src/unnamed/part_001` / `src/unnamed/part_002`) of the
node-chat repository, together with proofs about the embedded operations.

Modelling conventions:
* A JS `Map` is an insertion-ordered association list with unique keys
  (`set` updates in place when the key is present, else appends; `delete`
  removes the entry).
* A JS `Set` is an insertion-ordered list without duplicates (`add` appends
  when absent, `delete` removes the element); iteration follows list order.
* `socket.id` values and user ids are `Nat`.
* Remote (PHP backend) calls are suspension points; a handler is modelled as a
  function of its arguments and of the already-settled outcome of each remote
  call it awaits, returning the trace of remote calls issued, events emitted
  and replies sent.  `new Date()` observations are a `now : Nat` parameter.
* Socket.IO rooms are keyed by the value passed to `join`/`io.to`; the rooms
  actually populated are the `channel_<id>` strings, and the sockets map
  `io.sockets.sockets` is keyed by socket ids.  Passing any other value (for
  example a whole `Set` object) to `io.to` targets a room no socket has
  joined, and looking it up in the sockets map yields `undefined`.
-/

namespace NodeChat

/-- JS truthiness of an optional numeric id: `undefined`/`null` and `0` are
falsy, every other number is truthy. -/
def jsTruthy : Option Nat → Bool
  | none => false
  | some n => n != 0

/-- The in-memory `connectedUsers` map (`userId -> Set<socketId>`) from
`src/socket/handlers.js` line 40, modelled as a JS `Map`. -/
structure Registry where
  entries : List (Nat × List Nat)
  deriving DecidableEq

namespace Registry

/-- The registry at process start: empty. -/
def empty : Registry := ⟨[]⟩

/-- `connectedUsers.has(u)` -/
def hasUser (r : Registry) (u : Nat) : Bool :=
  r.entries.any (fun p => p.1 == u)

/-- `connectedUsers.get(u)` -/
def getUser (r : Registry) (u : Nat) : Option (List Nat) :=
  (r.entries.find? (fun p => p.1 == u)).map Prod.snd

/-- `connectedUsers.set(u, s)`: JS `Map.set` updates an existing key in place
and otherwise appends the new entry. -/
def setUser (r : Registry) (u : Nat) (s : List Nat) : Registry :=
  if r.hasUser u then ⟨r.entries.map (fun p => if p.1 == u then (u, s) else p)⟩
  else ⟨r.entries ++ [(u, s)]⟩

/-- `connectedUsers.delete(u)` -/
def deleteUser (r : Registry) (u : Nat) : Registry :=
  ⟨r.entries.filter (fun p => p.1 != u)⟩

/-- JS `Set.add`: append if absent. -/
def setAdd (s : List Nat) (h : Nat) : List Nat :=
  if h ∈ s then s else s ++ [h]

/-- Connection admission, `src/socket/handlers.js` lines 54-59: create the
entry when missing, read the set, record whether it was empty
(`isFirstConnection`), then add the socket id in place.  Returns the new
registry and the `isFirstConnection` flag. -/
def admitConn (r : Registry) (u h : Nat) : Registry × Bool :=
  let r1 := if r.hasUser u then r else r.setUser u []
  let s := (r1.getUser u).getD []
  let isFirst := s.length == 0
  (r1.setUser u (setAdd s h), isFirst)

/-- Connection eviction, from the `disconnect` handler
(`src/socket/handlers.js` lines 1129-1162): delete the socket id from the
user's set in place; if the set became empty, delete the map entry and report
that the user went fully offline. -/
def evict (r : Registry) (u h : Nat) : Registry × Bool :=
  if r.hasUser u then
    let s := (r.getUser u).getD []
    let s2 := s.erase h
    if s2.length == 0 then (r.deleteUser u, true) else (r.setUser u s2, false)
  else (r, false)

/-- Well-formedness the JS runtime guarantees for `connectedUsers` contents:
each stored `Set`, being a set, has no duplicate elements. -/
def WF (r : Registry) : Prop :=
  ∀ p ∈ r.entries, (p.2 : List Nat).Nodup

instance (r : Registry) : Decidable (WF r) := by
  unfold WF; infer_instance

end Registry

/-- One registry operation: a connection registering, or a disconnect. -/
inductive RegOp
  | admitConn (u h : Nat)
  | evict (u h : Nat)
  deriving DecidableEq

/-- Apply one operation, discarding the transition flag. -/
def applyOp (r : Registry) : RegOp → Registry
  | .admitConn u h => (r.admitConn u h).1
  | .evict u h => (r.evict u h).1

/-- Run a sequence of admit/evict operations from the empty registry. -/
def applyOps (ops : List RegOp) : Registry :=
  ops.foldl applyOp Registry.empty

/-! ## Presence lifecycle state machine (claim C1)

The connection block (`src/socket/handlers.js` lines 54-90) and the
`disconnect` handler (lines 1124-1167), with the asynchronous
`updatePhpOnlineStatus` remote calls made explicit: issuing a call appends the
user to a pending list, and a separate resolution action models the promise
settling.  On the online side both the `.then` and the `.catch` continuation
re-check `connectedUsers.has(userId)` before emitting `userOnline`; on the
offline side both continuations emit `userOffline` unconditionally. -/

/-- A presence broadcast actually emitted (`io.emit`). -/
inductive PEvent
  | online (u : Nat)
  | offline (u : Nat)
  deriving DecidableEq

/-- Registry, in-flight online/offline status calls, and the broadcast log. -/
structure PresState where
  reg : Registry
  pendOn : List Nat
  pendOff : List Nat
  log : List PEvent
  deriving DecidableEq

/-- Scheduler-visible actions: a socket of user `u` connects or disconnects,
or one of the pending status calls settles. -/
inductive PAct
  | connect (u h : Nat)
  | disconnect (u h : Nat)
  | resolveOnline (u : Nat)
  | resolveOffline (u : Nat)
  deriving DecidableEq

/-- One step of the presence coordinator. -/
def pstep (st : PresState) (a : PAct) : PresState :=
  match a with
  | .connect u h =>
    let p := st.reg.admitConn u h
    { st with reg := p.1
              pendOn := if p.2 then st.pendOn ++ [u] else st.pendOn }
  | .disconnect u h =>
    let p := st.reg.evict u h
    { st with reg := p.1
              pendOff := if p.2 then st.pendOff ++ [u] else st.pendOff }
  | .resolveOnline u =>
    if u ∈ st.pendOn then
      { st with pendOn := st.pendOn.erase u
                log := if st.reg.hasUser u then st.log ++ [.online u] else st.log }
    else st
  | .resolveOffline u =>
    if u ∈ st.pendOff then
      { st with pendOff := st.pendOff.erase u
                log := st.log ++ [.offline u] }
    else st

/-- Run an action trace from the initial (empty) server state. -/
def prun (acts : List PAct) : PresState :=
  acts.foldl pstep ⟨Registry.empty, [], [], []⟩

/-! ## Command handlers as call/event/reply traces

Each request/reply handler of `src/socket/handlers.js` is a function of its
arguments, of the already-settled outcome of the remote call it awaits, and of
the relay clock; it returns the list of remote calls issued (every remote call
is an `await`, i.e. a suspension point), the events broadcast, and the replies
sent through the acknowledgement callback, all in program order. -/

/-- The authoritative channel snapshot a backend response carries
(`data.id`, `data.users`); users are listed by id. -/
structure ChannelSnapshot where
  id : Nat
  users : List Nat
  deriving DecidableEq

/-- A reply sent through a command's acknowledgement callback. -/
inductive Reply
  | ok
  | okChannel (snap : ChannelSnapshot)
  | err (msg : String)
  deriving DecidableEq

/-- A remote call against the PHP backend-of-record. -/
inductive RCall
  | createChannelC (userIds : List Nat)
  | addUsers (cid : Nat) (uids : List Nat)
  | removeUsers (cid : Nat) (uids : List Nat)
  | fetchChannel (cid : Nat)
  | leftChat (cid : Nat)
  | deleteChannelC (cid : Nat)
  | sendMessageC (cid : Nat)
  | markDeliveredMsg (cid mid : Nat)
  | markReadMsg (cid mid : Nat)
  | markChannelDeliveredC (cid : Nat)
  | markChannelReadC (cid : Nat)
  deriving DecidableEq

/-- A client-facing event, with the payload fields the claims are about.
Timestamps are the `Nat` clock value placed in the payload. -/
inductive BEvent
  | newMessage (cid : Nat)
  | messageStatusDelivered (cid mid ts : Nat)
  | messageStatusRead (cid mid ts : Nat)
  | channelReadUpdate (cid reader ts : Nat)
  | channelBulkDelivered (cid ts actor : Nat)
  | channelBulkRead (cid ts actor : Nat)
  | channelDeleted (cid : Nat)
  | newChannelCreated (cid : Nat)
  | channelUpdated (cid : Nat) (snap : ChannelSnapshot)
  | userLeftGroup (cid uid : Nat)
  | removedFromGroup (cid : Nat)
  deriving DecidableEq

/-- Payload fields of a successful backend response that the claims mention. -/
structure RemoteData where
  delivered_at : Option Nat
  read_at : Option Nat
  deriving DecidableEq

/-- The settled outcome of an awaited remote call: a success response, a
response with `success: false` carrying an optional message, or a thrown
error with its final message string. -/
inductive RemoteOutcome
  | ok (d : RemoteData)
  | fail (msg : Option String)
  | exn (msg : String)
  deriving DecidableEq

/-- Observable trace of one handler invocation. -/
structure HandlerOut where
  calls : List RCall
  events : List BEvent
  replies : List Reply
  deriving DecidableEq

/-- The `sendMessage` handler (`src/socket/handlers.js` lines 178-226): one
POST, then on success a `newMessage` broadcast followed by the success reply;
the whole body sits in a single try/catch whose catch sends an error reply, so
a throwing broadcast (`bcThrow = some msg`) also lands there. -/
def sendMessageRun (cid : Nat) (remote : RemoteOutcome) (bcThrow : Option String) :
    HandlerOut :=
  match remote with
  | .exn m => ⟨[.sendMessageC cid], [], [.err m]⟩
  | .fail m => ⟨[.sendMessageC cid], [], [.err (m.getD "Failed to send message")]⟩
  | .ok _ =>
    match bcThrow with
    | some m => ⟨[.sendMessageC cid], [], [.err m]⟩
    | none => ⟨[.sendMessageC cid], [.newMessage cid], [.ok]⟩

/-- The `deleteChannel` handler (`src/socket/handlers.js` lines 404-435):
missing `channelId` is answered synchronously, before any remote call. -/
def deleteChannelRun (channelId : Option Nat) (remote : RemoteOutcome) : HandlerOut :=
  if !(jsTruthy channelId) then ⟨[], [], [.err "Channel ID required"]⟩
  else
    let cid := channelId.getD 0
    match remote with
    | .exn m => ⟨[.deleteChannelC cid], [], [.err m]⟩
    | .fail m => ⟨[.deleteChannelC cid], [], [.err (m.getD "PHP request failed")]⟩
    | .ok _ => ⟨[.deleteChannelC cid], [.channelDeleted cid], [.ok]⟩

/-- The `messageDeliveredAck` handler (`src/socket/handlers.js` lines
568-601).  It has no acknowledgement callback: invalid arguments and backend
failures only log, and a successful backend call broadcasts a
`messageStatusUpdate` whose `delivered_at` is `new Date()` — the relay clock
`now`, not anything from the response. -/
def messageDeliveredAckRun (channelId messageId : Option Nat) (tokenPresent : Bool)
    (remote : RemoteOutcome) (now : Nat) : HandlerOut :=
  if !(jsTruthy channelId) || !(jsTruthy messageId) then ⟨[], [], []⟩
  else if !tokenPresent then ⟨[], [], []⟩
  else
    let cid := channelId.getD 0
    let mid := messageId.getD 0
    match remote with
    | .exn _ => ⟨[.markDeliveredMsg cid mid], [], []⟩
    | .fail _ => ⟨[.markDeliveredMsg cid mid], [], []⟩
    | .ok _ => ⟨[.markDeliveredMsg cid mid], [.messageStatusDelivered cid mid now], []⟩

/-- The `markMessageRead` handler (`src/socket/handlers.js` lines 604-636):
same shape as `messageDeliveredAckRun`, broadcasting `read_at = new Date()`. -/
def markMessageReadRun (channelId messageId : Option Nat) (tokenPresent : Bool)
    (remote : RemoteOutcome) (now : Nat) : HandlerOut :=
  if !(jsTruthy channelId) || !(jsTruthy messageId) then ⟨[], [], []⟩
  else if !tokenPresent then ⟨[], [], []⟩
  else
    let cid := channelId.getD 0
    let mid := messageId.getD 0
    match remote with
    | .exn _ => ⟨[.markReadMsg cid mid], [], []⟩
    | .fail _ => ⟨[.markReadMsg cid mid], [], []⟩
    | .ok _ => ⟨[.markReadMsg cid mid], [.messageStatusRead cid mid now], []⟩

/-- The `markChannelDelivered` handler (`src/socket/handlers.js` lines
639-775): synchronous validations, the PHP call in its own try/catch, then a
guarded broadcast (a throwing broadcast is logged and the handler continues)
and a guarded callback; every path sends exactly one reply. -/
def markChannelDeliveredRun (uid : Nat) (channelId : Option Nat) (tokenPresent : Bool)
    (remote : RemoteOutcome) (bcThrow : Bool) (now : Nat) : HandlerOut :=
  if !(jsTruthy channelId) then ⟨[], [], [.err "Channel ID required"]⟩
  else if !tokenPresent then ⟨[], [], [.err "Auth token missing."]⟩
  else
    let cid := channelId.getD 0
    match remote with
    | .exn m => ⟨[.markChannelDeliveredC cid], [], [.err ("Failed to contact server: " ++ m)]⟩
    | .fail m => ⟨[.markChannelDeliveredC cid], [], [.err (m.getD "PHP request indicated failure")]⟩
    | .ok _ =>
      if bcThrow then ⟨[.markChannelDeliveredC cid], [], [.ok]⟩
      else ⟨[.markChannelDeliveredC cid], [.channelBulkDelivered cid now uid], [.ok]⟩

/-- The `markChannelRead` handler (`src/socket/handlers.js` lines 779-833):
on success it broadcasts `channelReadUpdate` then `channelBulkReadUpdate`,
both stamped with `new Date()` — the relay clock `now`. -/
def markChannelReadRun (uid : Nat) (channelId : Option Nat) (tokenPresent : Bool)
    (remote : RemoteOutcome) (now : Nat) : HandlerOut :=
  if !(jsTruthy channelId) then ⟨[], [], [.err "Channel ID required"]⟩
  else if !tokenPresent then ⟨[], [], [.err "Auth token missing."]⟩
  else
    let cid := channelId.getD 0
    match remote with
    | .exn m => ⟨[.markChannelReadC cid], [], [.err m]⟩
    | .fail m => ⟨[.markChannelReadC cid], [], [.err (m.getD "PHP request failed")]⟩
    | .ok _ =>
      ⟨[.markChannelReadC cid],
       [.channelReadUpdate cid uid now, .channelBulkRead cid now uid], [.ok]⟩

/-! ## Stateful Socket.IO model

For the handlers whose behaviour depends on the registry and on room
membership (`createChannel`, `addMembersToGroup`, `leaveGroup`,
`removeMembersFromGroup`), the server state carries the registry, the set of
live socket ids (the keys of `io.sockets.sockets`), and the room-membership
table, alongside the delivered-event / reply / remote-call logs. -/

/-- A value used as a room key or as a sockets-map key.  Rooms that sockets
actually join are the `channel_<id>` strings (`chan`) and each socket's own id
room (`sid`); `setObj` is a whole JS `Set` object used where a single socket
id is expected — it matches no joined room and no sockets-map key. -/
inductive JsKey
  | chan (c : Nat)
  | sid (n : Nat)
  | setObj (hs : List Nat)
  deriving DecidableEq

/-- Socket.IO server state plus the observable logs of one handler run. -/
structure IoState where
  reg : Registry
  live : List Nat
  rooms : JsKey → List Nat
  delivered : List (Nat × BEvent)
  replies : List Reply
  calls : List RCall

/-- `socket.join(key)`: add the socket to the room (a Socket.IO room is a set;
joining twice is a no-op). -/
def IoState.join (st : IoState) (n : Nat) (k : JsKey) : IoState :=
  { st with rooms := fun k2 =>
      if k2 = k then (if n ∈ st.rooms k then st.rooms k else st.rooms k ++ [n])
      else st.rooms k2 }

/-- `socket.leave(key)`: remove the socket from the room. -/
def IoState.leave (st : IoState) (n : Nat) (k : JsKey) : IoState :=
  { st with rooms := fun k2 => if k2 = k then (st.rooms k).erase n else st.rooms k2 }

/-- `io.to(key).emit(ev)`: deliver `ev` to every socket in the room named by
`key` (none, if no socket ever joined a room by that name). -/
def IoState.emitRoom (st : IoState) (k : JsKey) (e : BEvent) : IoState :=
  { st with delivered := st.delivered ++ (st.rooms k).map (fun n => (n, e)) }

/-- `socket.to(key).emit(ev)`: like `io.to` but excluding the emitting
socket. -/
def IoState.emitRoomExcept (st : IoState) (selfSid : Nat) (k : JsKey) (e : BEvent) :
    IoState :=
  { st with delivered :=
      st.delivered ++ ((st.rooms k).filter (fun m => m != selfSid)).map (fun n => (n, e)) }

/-- `targetSocket.emit(ev)`: deliver directly to one socket. -/
def IoState.emitSocket (st : IoState) (n : Nat) (e : BEvent) : IoState :=
  { st with delivered := st.delivered ++ [(n, e)] }

/-- `io.sockets.sockets.get(k)`: the sockets map is keyed by socket ids, so
only a socket-id key of a live socket is found. -/
def IoState.socketsGet (st : IoState) (k : JsKey) : Option Nat :=
  match k with
  | .sid n => if n ∈ st.live then some n else none
  | _ => none

/-- Send a reply through the acknowledgement callback. -/
def IoState.reply (st : IoState) (r : Reply) : IoState :=
  { st with replies := st.replies ++ [r] }

/-- Issue (await) a remote call. -/
def IoState.call (st : IoState) (c : RCall) : IoState :=
  { st with calls := st.calls ++ [c] }

/-- The `createChannel` handler (`src/socket/handlers.js` lines 437-547).
After a successful remote call the creator's socket joins the channel room;
then, for each requested participant, the handler reads
`connectedUsers.get(otherUserId)` — which is the user's whole `Set` of socket
ids — and passes that value where a single socket id is expected:
`io.to(<Set>)` emits `newChannelCreated` to the room named by the `Set`
object, and `io.sockets.sockets.get(<Set>)` is looked up among socket-id
keys.  `remote = none` models a failed/failing remote call. -/
def createChannelRun (st : IoState) (selfSid : Nat) (userIds : List Nat)
    (isGroup : Nat) (remote : Option ChannelSnapshot) : IoState :=
  if userIds = [] then st.reply (.err "Valid user IDs array required")
  else if isGroup == 0 && userIds.length != 1 then
    st.reply (.err "Exactly one user ID required for 1-on-1 chat creation.")
  else
    let st := st.call (.createChannelC userIds)
    match remote with
    | none => st.reply (.err "Failed to create channel via PHP")
    | some snap =>
      let st := st.join selfSid (.chan snap.id)
      let st := userIds.foldl (fun st otherUserId =>
        match st.reg.getUser otherUserId with
        | none => st
        | some hs =>
          let st := st.emitRoom (.setObj hs) (.newChannelCreated snap.id)
          match st.socketsGet (.setObj hs) with
          | some n => st.join n (.chan snap.id)
          | none => st) st
      st.reply (.okChannel snap)

/-- The `addMembersToGroup` handler revision of `src/unnamed/part_002` (lines
1023-1129): POST `add-users`, then on success a GET re-fetch of the channel;
for each user of the refreshed snapshot that was in `userIdsToAdd`, every one
of their registered socket ids found live is joined to the room and sent
`channelUpdated`; then the refreshed snapshot is broadcast to the room and the
caller gets it in the success reply.  `addOk`/`addMsg` model the `add-users`
response, `fetchRes` the re-fetch (`none` covering both a failed fetch and a
thrown fetch error, which this revision answers identically). -/
def addMembersToGroupRun (st : IoState) (channelId : Option Nat)
    (userIdsToAdd : List Nat) (addOk : Bool) (addMsg : Option String)
    (fetchRes : Option ChannelSnapshot) : IoState :=
  if !(jsTruthy channelId) then st.reply (.err "Channel ID required.")
  else if userIdsToAdd = [] then st.reply (.err "User IDs required.")
  else
    let cid := channelId.getD 0
    let st := st.call (.addUsers cid userIdsToAdd)
    if addOk then
      let st := st.call (.fetchChannel cid)
      match fetchRes with
      | none => st.reply (.err "Members added, but failed to refresh channel data.")
      | some snap =>
        if snap.id = 0 then st.reply (.err "Invalid updated channel data fetched.")
        else
          let st := snap.users.foldl (fun st newUserId =>
            if newUserId ∈ userIdsToAdd then
              match st.reg.getUser newUserId with
              | some hs =>
                if 0 < hs.length then
                  hs.foldl (fun st tsid =>
                    match st.socketsGet (.sid tsid) with
                    | some n =>
                      let st := st.join n (.chan cid)
                      st.emitSocket n (.channelUpdated cid snap)
                    | none => st) st
                else st
              | none => st
            else st) st
          let st := st.emitRoom (.chan cid) (.channelUpdated cid snap)
          st.reply (.okChannel snap)
    else st.reply (.err (addMsg.getD "Failed to add members."))

/-- The `leaveGroup` handler (`src/socket/handlers.js` lines 835-911).  On a
successful `left-chat` call: the leaving socket leaves the room, the
remaining room members get `userLeftGroup`, the caller gets the success
reply, and finally the caller's own socket is sent `channelDeleted`. -/
def leaveGroupRun (st : IoState) (sid uid : Nat) (channelId : Option Nat)
    (tokenPresent : Bool) (remote : RemoteOutcome) : IoState :=
  if !(jsTruthy channelId) then st.reply (.err "Channel ID required")
  else if !tokenPresent then st.reply (.err "Auth token missing.")
  else
    let cid := channelId.getD 0
    let st := st.call (.leftChat cid)
    match remote with
    | .exn m => st.reply (.err ("Failed to contact server: " ++ m))
    | .fail m => st.reply (.err (m.getD "PHP request indicated failure"))
    | .ok _ =>
      let st := st.leave sid (.chan cid)
      let st := st.emitRoomExcept sid (.chan cid) (.userLeftGroup cid uid)
      let st := st.reply .ok
      st.emitSocket sid (.channelDeleted cid)

/-- The `removeMembersFromGroup` handler revision of `src/unnamed/part_002`
(lines 1131-1244): validations (including the self-removal guard) precede the
`remove-users` call; on success each removed user's live sockets are sent
`removedFromGroup` and made to leave the room, then the channel is re-fetched
and on a valid snapshot `channelUpdated` is broadcast to the room; the reply
is a plain success even when the re-fetch fails. -/
def removeMembersFromGroupRun (st : IoState) (uid : Nat) (channelId : Option Nat)
    (userIdsToRemove : List Nat) (removeOk : Bool) (removeMsg : Option String)
    (fetchRes : Option ChannelSnapshot) : IoState :=
  if !(jsTruthy channelId) then st.reply (.err "Channel ID required.")
  else if userIdsToRemove = [] then st.reply (.err "User IDs required.")
  else if uid ∈ userIdsToRemove then st.reply (.err "Cannot remove yourself.")
  else
    let cid := channelId.getD 0
    let st := st.call (.removeUsers cid userIdsToRemove)
    if removeOk then
      let st := userIdsToRemove.foldl (fun st ruid =>
        match st.reg.getUser ruid with
        | some hs =>
          if 0 < hs.length then
            hs.foldl (fun st tsid =>
              match st.socketsGet (.sid tsid) with
              | some n =>
                let st := st.emitSocket n (.removedFromGroup cid)
                st.leave n (.chan cid)
              | none => st) st
          else st
        | none => st) st
      let st := st.call (.fetchChannel cid)
      match fetchRes with
      | none => st.reply .ok
      | some snap =>
        if snap.id ≠ 0 then
          let st := st.emitRoom (.chan cid) (.channelUpdated cid snap)
          st.reply .ok
        else st.reply .ok
    else st.reply (.err (removeMsg.getD "Failed to remove members."))

/-! ## Registry lemmas (claim C2) -/

theorem Registry.hasUser_false_forall {r : Registry} {u : Nat}
    (h : r.hasUser u = false) : ∀ p ∈ r.entries, p.1 ≠ u := by
  intro p hp
  unfold Registry.hasUser at h
  rw [List.any_eq_false] at h
  simpa using h p hp

theorem Registry.mem_setUser {r : Registry} {u : Nat} {s : List Nat}
    {p : Nat × List Nat} (hp : p ∈ (r.setUser u s).entries) :
    p = (u, s) ∨ (p ∈ r.entries ∧ p.1 ≠ u) := by
  unfold Registry.setUser at hp
  by_cases h : r.hasUser u
  · rw [if_pos h] at hp
    rcases List.mem_map.1 hp with ⟨q, hq, hfq⟩
    by_cases hqu : q.1 = u
    · left
      rw [← hfq]
      simp [hqu]
    · right
      have hb : (q.1 == u) = false := by simpa using hqu
      rw [← hfq]
      simp only [hb, Bool.false_eq_true, if_false]
      exact ⟨hq, hqu⟩
  · rw [if_neg h] at hp
    simp only [List.mem_append, List.mem_singleton] at hp
    rcases hp with hp | hp
    · right
      refine ⟨hp, ?_⟩
      exact Registry.hasUser_false_forall (by simpa using h) p hp
    · left; exact hp

theorem Registry.setAdd_ne_nil (s : List Nat) (h : Nat) : Registry.setAdd s h ≠ [] := by
  unfold Registry.setAdd
  by_cases hm : h ∈ s
  · rw [if_pos hm]
    exact List.ne_nil_of_mem hm
  · rw [if_neg hm]
    simp

/-- Every entry of the registry keeps a non-empty socket list. -/
def Registry.NonempEntries (r : Registry) : Prop :=
  ∀ p ∈ r.entries, p.2 ≠ []

theorem Registry.admitConn_nonemp {r : Registry} {u h : Nat}
    (hr : r.NonempEntries) : (r.admitConn u h).1.NonempEntries := by
  intro p hp
  unfold Registry.admitConn at hp
  rcases Registry.mem_setUser hp with hps | ⟨hp1, hp2⟩
  · rw [hps]
    exact Registry.setAdd_ne_nil _ _
  · by_cases hhas : r.hasUser u
    · rw [if_pos hhas] at hp1
      exact hr p hp1
    · rw [if_neg hhas] at hp1
      rcases Registry.mem_setUser hp1 with hps2 | ⟨hp3, _⟩
      · exfalso; exact hp2 (by rw [hps2])
      · exact hr p hp3

theorem Registry.nonemp_evict {r : Registry} {u h : Nat}
    (hr : r.NonempEntries) : (r.evict u h).1.NonempEntries := by
  intro p hp
  unfold Registry.evict at hp
  by_cases hhas : r.hasUser u
  · rw [if_pos hhas] at hp
    by_cases hlen : (((r.getUser u).getD []).erase h).length == 0
    · rw [if_pos hlen] at hp
      unfold Registry.deleteUser at hp
      exact hr p (List.mem_filter.1 hp).1
    · rw [if_neg hlen] at hp
      rcases Registry.mem_setUser hp with hps | ⟨hp1, _⟩
      · rw [hps]
        intro hnil
        apply hlen
        have hnil2 : ((r.getUser u).getD []).erase h = [] := hnil
        rw [hnil2]
        rfl
      · exact hr p hp1
  · rw [if_neg hhas] at hp
    exact hr p hp

theorem nonemp_applyOps (ops : List RegOp) : (applyOps ops).NonempEntries := by
  have key : ∀ (l : List RegOp) (r : Registry), r.NonempEntries →
      (l.foldl applyOp r).NonempEntries := by
    intro l
    induction l with
    | nil => intro r hr; exact hr
    | cons op tl ih =>
      intro r hr
      apply ih
      cases op with
      | admitConn u h => exact Registry.admitConn_nonemp hr
      | evict u h => exact Registry.nonemp_evict hr
  have hempty : Registry.empty.NonempEntries := by
    intro p hp
    simp [Registry.empty] at hp
  exact key ops Registry.empty hempty

theorem Registry.hasUser_deleteUser (r : Registry) (u : Nat) :
    (r.deleteUser u).hasUser u = false := by
  unfold Registry.deleteUser Registry.hasUser
  rw [List.any_eq_false]
  intro p hp
  have := (List.mem_filter.1 hp).2
  simpa using this

theorem Registry.hasUser_setUser_self {r : Registry} {u : Nat} {s : List Nat}
    (h : r.hasUser u = true) : (r.setUser u s).hasUser u = true := by
  unfold Registry.setUser
  rw [if_pos h]
  unfold Registry.hasUser at h ⊢
  rw [List.any_eq_true] at h ⊢
  rcases h with ⟨p, hp, hpu⟩
  exact ⟨(u, s), List.mem_map.2 ⟨p, hp, by simp [hpu]⟩, by simp⟩

theorem find?_key_map_replace (u : Nat) (s : List Nat)
    (l : List (Nat × List Nat)) (h : l.any (fun p => p.1 == u) = true) :
    (l.map (fun p => if p.1 == u then (u, s) else p)).find? (fun p => p.1 == u)
      = some (u, s) := by
  induction l with
  | nil => simp at h
  | cons p tl ih =>
    simp only [List.map_cons]
    by_cases hpu : p.1 = u
    · have hrepl : (if p.1 == u then (u, s) else p) = (u, s) := by simp [hpu]
      rw [hrepl]
      exact List.find?_cons_of_pos _ (by simp)
    · have hrepl : (if p.1 == u then (u, s) else p) = p := by simp [hpu]
      rw [hrepl]
      rw [List.find?_cons_of_neg _ (by simpa using hpu)]
      have h2 : tl.any (fun q => q.1 == u) = true := by
        rcases List.any_eq_true.1 h with ⟨q, hq, hqu⟩
        rcases List.mem_cons.1 hq with rfl | hq2
        · exact absurd (by simpa using hqu) hpu
        · exact List.any_eq_true.2 ⟨q, hq2, hqu⟩
      exact ih h2

theorem Registry.getUser_setUser_self {r : Registry} {u : Nat} {s : List Nat}
    (h : r.hasUser u = true) : (r.setUser u s).getUser u = some s := by
  unfold Registry.setUser Registry.getUser
  rw [if_pos h]
  unfold Registry.hasUser at h
  simp only
  rw [find?_key_map_replace u s r.entries h]
  rfl

theorem map_id_of_fix {α : Type} (f : α → α) (l : List α) (h : ∀ a ∈ l, f a = a) :
    l.map f = l := by
  induction l with
  | nil => rfl
  | cons a tl ih =>
    rw [List.map_cons, h a (List.mem_cons_self a tl),
      ih (fun b hb => h b (List.mem_cons_of_mem a hb))]

theorem Registry.setUser_setUser (r : Registry) (u : Nat) (s : List Nat) :
    (r.setUser u s).setUser u s = r.setUser u s := by
  have h2 : (r.setUser u s).hasUser u = true := by
    by_cases h : r.hasUser u
    · exact Registry.hasUser_setUser_self h
    · unfold Registry.setUser
      rw [if_neg h]
      unfold Registry.hasUser
      simp
  have hfix : ∀ p ∈ (r.setUser u s).entries,
      (fun p : Nat × List Nat => if p.1 == u then (u, s) else p) p = p := by
    intro p hp
    rcases Registry.mem_setUser hp with rfl | ⟨_, hne⟩
    · simp
    · simp [hne]
  generalize hq : r.setUser u s = q at h2 hfix ⊢
  unfold Registry.setUser
  rw [if_pos h2]
  rw [map_id_of_fix _ _ hfix]

theorem Registry.getUser_nodup {r : Registry} {u : Nat} {s : List Nat}
    (hwf : r.WF) (h : r.getUser u = some s) : s.Nodup := by
  unfold Registry.getUser at h
  rcases hfind : r.entries.find? (fun p => p.1 == u) with _ | p
  · rw [hfind] at h; simp at h
  · rw [hfind] at h
    have h2 : p.2 = s := by simpa using h
    rw [← h2]
    exact hwf p (List.mem_of_find?_eq_some hfind)

theorem Registry.hasUser_iff_find? {r : Registry} {u : Nat}
    (h : r.hasUser u = true) : (r.entries.find? (fun p => p.1 == u)).isSome := by
  rw [List.find?_isSome]
  rcases List.any_eq_true.1 h with ⟨p, hp, hpu⟩
  exact ⟨p, hp, hpu⟩

/-- Evicting the same socket id twice leaves the registry exactly where the
first eviction left it (`Set.delete` of an absent element and `Map` lookups of
an absent key are no-ops, not errors). -/
theorem Registry.evict_evict (r : Registry) (u h : Nat) (hwf : r.WF) :
    ((r.evict u h).1.evict u h).1 = (r.evict u h).1 := by
  by_cases hhas : r.hasUser u
  · rcases hfind : r.entries.find? (fun p => p.1 == u) with _ | p
    · have hsome := Registry.hasUser_iff_find? hhas
      rw [hfind] at hsome
      simp at hsome
    · have hget : r.getUser u = some p.2 := by
        unfold Registry.getUser
        rw [hfind]
        rfl
      have hnd : p.2.Nodup := hwf p (List.mem_of_find?_eq_some hfind)
      by_cases hlen : ((p.2.erase h).length == 0) = true
      · have h1 : r.evict u h = (r.deleteUser u, true) := by
          unfold Registry.evict
          rw [if_pos hhas, hget]
          simp only [Option.getD_some]
          rw [if_pos hlen]

        rw [h1]
        have hd : (r.deleteUser u).hasUser u = false := Registry.hasUser_deleteUser r u
        show ((r.deleteUser u).evict u h).1 = r.deleteUser u
        unfold Registry.evict
        rw [hd]
        simp
      · have h1 : r.evict u h = (r.setUser u (p.2.erase h), false) := by
          unfold Registry.evict
          rw [if_pos hhas, hget]
          simp only [Option.getD_some]
          rw [if_neg hlen]
        rw [h1]
        show ((r.setUser u (p.2.erase h)).evict u h).1 = r.setUser u (p.2.erase h)
        have hhas2 : (r.setUser u (p.2.erase h)).hasUser u = true :=
          Registry.hasUser_setUser_self hhas
        have hget2 : (r.setUser u (p.2.erase h)).getUser u = some (p.2.erase h) :=
          Registry.getUser_setUser_self hhas
        have herase : (p.2.erase h).erase h = p.2.erase h := by
          apply List.erase_of_not_mem
          intro hmem
          exact ((List.Nodup.mem_erase_iff hnd).1 hmem).1 rfl
        unfold Registry.evict
        rw [hhas2, hget2]
        simp only [Option.getD_some, herase, if_true]
        rw [if_neg hlen]
        simp only
        exact Registry.setUser_setUser r u (p.2.erase h)
  · have h1 : r.evict u h = (r, false) := by
      unfold Registry.evict
      rw [if_neg hhas]
    rw [h1]
    show (r.evict u h).1 = r
    rw [h1]

/-! ## Claim theorems -/

/-- C2: for every sequence of admit/evict operations on the `connectedUsers`
registry, (a) the map never contains a user key with an empty socket set,
(b) evicting the same handle twice is a no-op on the registry rather than an
error (the second eviction leaves the state of the first one unchanged; the
`WF` hypothesis is the JS guarantee that a stored `Set` has no duplicates),
and (c) a handle-set size, being a natural number, never goes negative. -/
theorem connectedUsers_admit_evict_invariants :
    (∀ ops : List RegOp, ∀ p ∈ (applyOps ops).entries, p.2 ≠ [])
    ∧ (∀ (r : Registry) (u h : Nat), r.WF →
        ((r.evict u h).1.evict u h).1 = (r.evict u h).1)
    ∧ (∀ (ops : List RegOp) (u : Nat),
        0 ≤ (((applyOps ops).getUser u).getD []).length) := by
  refine ⟨?_, ?_, ?_⟩
  · intro ops p hp
    exact nonemp_applyOps ops p hp
  · intro r u h hwf
    exact Registry.evict_evict r u h hwf
  · intro ops u
    exact Nat.zero_le _

/-- C2 witness: the invariant theorem applied at concrete inputs — the
registry reached by admitting socket 5 for user 1, and double eviction on a
concrete one-entry registry. -/
theorem connectedUsers_admit_evict_invariants_witness :
    (([5] : List Nat) ≠ [])
    ∧ ((((⟨[(1, [5])]⟩ : Registry).evict 1 5).1.evict 1 5).1
        = ((⟨[(1, [5])]⟩ : Registry).evict 1 5).1) := by
  constructor
  · exact connectedUsers_admit_evict_invariants.1 [RegOp.admitConn 1 5] (1, [5]) (by decide)
  · exact connectedUsers_admit_evict_invariants.2.1 ⟨[(1, [5])]⟩ 1 5 (by decide)

/-- C1 (code bug evaluation): user 1 connects (socket 10), the online-status
call resolves, the last socket disconnects (queueing an offline-status call),
the user reconnects (socket 11) before that call resolves, the new
online-status call resolves, and finally the pending offline-status call
resolves.  All issued remote calls have settled, the final registry state has
user 1 online — yet the broadcast log ends with a stale `userOffline`,
because the disconnect handler emits `userOffline` unconditionally at
call-resolution time, without the registry re-check the online path has. -/
theorem presence_reconnect_race_ends_with_stale_offline :
    (prun [PAct.connect 1 10, PAct.resolveOnline 1, PAct.disconnect 1 10,
           PAct.connect 1 11, PAct.resolveOnline 1, PAct.resolveOffline 1]).reg.hasUser 1
      = true
    ∧ (prun [PAct.connect 1 10, PAct.resolveOnline 1, PAct.disconnect 1 10,
             PAct.connect 1 11, PAct.resolveOnline 1, PAct.resolveOffline 1]).pendOn = []
    ∧ (prun [PAct.connect 1 10, PAct.resolveOnline 1, PAct.disconnect 1 10,
             PAct.connect 1 11, PAct.resolveOnline 1, PAct.resolveOffline 1]).pendOff = []
    ∧ (prun [PAct.connect 1 10, PAct.resolveOnline 1, PAct.disconnect 1 10,
             PAct.connect 1 11, PAct.resolveOnline 1, PAct.resolveOffline 1]).log
      = [PEvent.online 1, PEvent.online 1, PEvent.offline 1] := by
  decide

/-- C3 (code bug evaluation): user 42 is online with registered socket 7,
which is live; socket 1 creates channel 100 with `userIds = [42]` and the
backend succeeds.  The creator is subscribed and receives the success reply,
but socket 7 is neither subscribed to the channel room nor delivered a
`newChannelCreated` event — `connectedUsers.get(42)` returns the whole `Set`,
which `io.to` uses as a room name no socket has joined and
`io.sockets.sockets.get` fails to look up. -/
theorem createChannel_skips_online_participant_handles :
    ((⟨⟨[(42, [7])]⟩, [1, 7], fun _ => [], [], [], []⟩ : IoState).reg.getUser 42
      = some [7])
    ∧ (createChannelRun ⟨⟨[(42, [7])]⟩, [1, 7], fun _ => [], [], [], []⟩ 1 [42] 1
        (some ⟨100, [9, 42]⟩)).delivered = []
    ∧ ¬ (7 ∈ (createChannelRun ⟨⟨[(42, [7])]⟩, [1, 7], fun _ => [], [], [], []⟩ 1 [42] 1
        (some ⟨100, [9, 42]⟩)).rooms (JsKey.chan 100))
    ∧ 1 ∈ (createChannelRun ⟨⟨[(42, [7])]⟩, [1, 7], fun _ => [], [], [], []⟩ 1 [42] 1
        (some ⟨100, [9, 42]⟩)).rooms (JsKey.chan 100)
    ∧ (createChannelRun ⟨⟨[(42, [7])]⟩, [1, 7], fun _ => [], [], [], []⟩ 1 [42] 1
        (some ⟨100, [9, 42]⟩)).replies = [Reply.okChannel ⟨100, [9, 42]⟩] := by
  decide

/-- C4: in the `addMembersToGroup` revision of `src/unnamed/part_002`, the
caller (socket 1) adds user 2 (online with live sockets 21 and 22) and user 3
(offline) to channel 9; the backend mutation succeeds and the re-fetch
returns the snapshot with users 7, 2, 3.  The mutation is followed by the
re-fetch, both of user 2's sockets are subscribed and receive
`channelUpdated`, the offline user causes no error (the only reply is the
success), and the caller's reply carries the re-fetched snapshot. -/
theorem addMembers_online_two_devices_offline_one :
    ((addMembersToGroupRun ⟨⟨[(2, [21, 22])]⟩, [1, 21, 22], fun _ => [], [], [], []⟩
        (some 9) [2, 3] true none (some ⟨9, [7, 2, 3]⟩)).calls
      = [RCall.addUsers 9 [2, 3], RCall.fetchChannel 9])
    ∧ (21, BEvent.channelUpdated 9 ⟨9, [7, 2, 3]⟩)
        ∈ (addMembersToGroupRun ⟨⟨[(2, [21, 22])]⟩, [1, 21, 22], fun _ => [], [], [], []⟩
            (some 9) [2, 3] true none (some ⟨9, [7, 2, 3]⟩)).delivered
    ∧ (22, BEvent.channelUpdated 9 ⟨9, [7, 2, 3]⟩)
        ∈ (addMembersToGroupRun ⟨⟨[(2, [21, 22])]⟩, [1, 21, 22], fun _ => [], [], [], []⟩
            (some 9) [2, 3] true none (some ⟨9, [7, 2, 3]⟩)).delivered
    ∧ 21 ∈ (addMembersToGroupRun ⟨⟨[(2, [21, 22])]⟩, [1, 21, 22], fun _ => [], [], [], []⟩
            (some 9) [2, 3] true none (some ⟨9, [7, 2, 3]⟩)).rooms (JsKey.chan 9)
    ∧ 22 ∈ (addMembersToGroupRun ⟨⟨[(2, [21, 22])]⟩, [1, 21, 22], fun _ => [], [], [], []⟩
            (some 9) [2, 3] true none (some ⟨9, [7, 2, 3]⟩)).rooms (JsKey.chan 9)
    ∧ (addMembersToGroupRun ⟨⟨[(2, [21, 22])]⟩, [1, 21, 22], fun _ => [], [], [], []⟩
            (some 9) [2, 3] true none (some ⟨9, [7, 2, 3]⟩)).replies
      = [Reply.okChannel ⟨9, [7, 2, 3]⟩] := by
  decide

/-- C6: a command arriving without a `channelId` is answered
`{success:false, error:"Channel ID required"}` with no remote call issued —
for both cited handlers the validation and the error reply happen before any
`await` (the call trace is empty, and remote calls are the only suspension
points), whatever the would-be remote outcome or broadcast behaviour. -/
theorem missing_channelId_rejected_without_remote_call :
    ∀ (uid now : Nat) (remote : RemoteOutcome) (bcThrow : Bool),
      deleteChannelRun none remote = ⟨[], [], [Reply.err "Channel ID required"]⟩
      ∧ markChannelDeliveredRun uid none true remote bcThrow now
          = ⟨[], [], [Reply.err "Channel ID required"]⟩ := by
  intro uid now remote bcThrow
  exact ⟨rfl, rfl⟩

/-- C5 (counterexample): in the `sendMessage` handler a broadcast that throws
after a successful remote call is caught by the handler's single catch-all
and surfaced as `{success:false}` — a broadcast failure converted into a
command failure reply, contradicting the claim that broadcast failures are
only logged. -/
theorem sendMessage_broadcast_failure_surfaced_as_error :
    (sendMessageRun 5 (RemoteOutcome.ok ⟨none, none⟩) (some "emit failed")).replies
      = [Reply.err "emit failed"]
    ∧ (sendMessageRun 5 (RemoteOutcome.ok ⟨none, none⟩) (some "emit failed")).replies
      ≠ [Reply.ok]
    ∧ (sendMessageRun 5 (RemoteOutcome.ok ⟨none, none⟩) (some "emit failed")).calls
      = [RCall.sendMessageC 5] := by
  decide

/-- C5 (amended): every invocation of the two cited handlers delivers exactly
one reply — success or error — even when the broadcast step throws, and the
remote call is never retried; in `markChannelDelivered` a throwing broadcast
is logged only and the success reply is still sent, whereas in `sendMessage`
a throwing broadcast after a successful remote call produces the (single)
error reply. -/
theorem exactly_one_reply_never_retried :
    ∀ (cid uid now : Nat) (chan : Option Nat) (tok : Bool) (remote : RemoteOutcome)
      (bcThrowS : Option String) (bcThrow : Bool),
      (sendMessageRun cid remote bcThrowS).replies.length = 1
      ∧ (sendMessageRun cid remote bcThrowS).calls.length ≤ 1
      ∧ (markChannelDeliveredRun uid chan tok remote bcThrow now).replies.length = 1
      ∧ (markChannelDeliveredRun uid chan tok remote bcThrow now).calls.length ≤ 1
      ∧ (markChannelDeliveredRun uid (some (cid + 1)) true (RemoteOutcome.ok ⟨none, none⟩)
          true now).replies = [Reply.ok] := by
  intro cid uid now chan tok remote bcThrowS bcThrow
  refine ⟨?_, ?_, ?_, ?_, ?_⟩
  · cases remote <;> cases bcThrowS <;> simp [sendMessageRun]
  · cases remote <;> cases bcThrowS <;> simp [sendMessageRun]
  · unfold markChannelDeliveredRun
    split_ifs <;> cases remote <;> cases bcThrow <;> simp
  · unfold markChannelDeliveredRun
    split_ifs <;> cases remote <;> cases bcThrow <;> simp
  · unfold markChannelDeliveredRun
    simp [jsTruthy]

/-- C7: repeating the same delivered (resp. read) acknowledgement on the same
`channelId`/`messageId`, with the backend confirming both attempts, produces
one remote call and one status broadcast per attempt — two broadcasts in
total — and no error reply on either attempt (these handlers have no
acknowledgement callback and can reject nothing). -/
theorem repeated_ack_rebroadcasts_without_error :
    ∀ (cid mid t1 t2 : Nat) (d1 d2 : RemoteData), cid ≠ 0 → mid ≠ 0 →
      ((messageDeliveredAckRun (some cid) (some mid) true (RemoteOutcome.ok d1) t1).events.length
        + (messageDeliveredAckRun (some cid) (some mid) true (RemoteOutcome.ok d2) t2).events.length
        = 2)
      ∧ (messageDeliveredAckRun (some cid) (some mid) true (RemoteOutcome.ok d1) t1).calls
          = [RCall.markDeliveredMsg cid mid]
      ∧ (messageDeliveredAckRun (some cid) (some mid) true (RemoteOutcome.ok d2) t2).calls
          = [RCall.markDeliveredMsg cid mid]
      ∧ (messageDeliveredAckRun (some cid) (some mid) true (RemoteOutcome.ok d2) t2).replies = []
      ∧ ((markMessageReadRun (some cid) (some mid) true (RemoteOutcome.ok d1) t1).events.length
        + (markMessageReadRun (some cid) (some mid) true (RemoteOutcome.ok d2) t2).events.length
        = 2)
      ∧ (markMessageReadRun (some cid) (some mid) true (RemoteOutcome.ok d2) t2).calls
          = [RCall.markReadMsg cid mid]
      ∧ (markMessageReadRun (some cid) (some mid) true (RemoteOutcome.ok d2) t2).replies = [] := by
  intro cid mid t1 t2 d1 d2 hc hm
  simp [messageDeliveredAckRun, markMessageReadRun, jsTruthy, hc, hm]

/-- C7 witness: both acknowledgement handlers run twice at concrete inputs. -/
theorem repeated_ack_rebroadcasts_without_error_witness :
    (1 : Nat) ≠ 0 ∧ (2 : Nat) ≠ 0
    ∧ ((messageDeliveredAckRun (some 1) (some 2) true (RemoteOutcome.ok ⟨none, none⟩) 3).events.length
        + (messageDeliveredAckRun (some 1) (some 2) true (RemoteOutcome.ok ⟨none, none⟩) 4).events.length
        = 2) := by
  refine ⟨by decide, by decide, ?_⟩
  exact (repeated_ack_rebroadcasts_without_error 1 2 3 4 ⟨none, none⟩ ⟨none, none⟩
    (by decide) (by decide)).1

/-- C8: for every successful acknowledgement — per-message delivered, per-
message read, per-channel bulk delivered and per-channel bulk read — the
timestamp placed in the status broadcast is the relay clock observation `now`
taken at backend confirmation, for every backend response payload `d`
(including responses carrying their own `delivered_at`/`read_at` values,
which the current handlers ignore). -/
theorem ack_broadcast_timestamp_is_relay_clock :
    ∀ (cid mid uid now : Nat) (d : RemoteData), cid ≠ 0 → mid ≠ 0 →
      (messageDeliveredAckRun (some cid) (some mid) true (RemoteOutcome.ok d) now).events
        = [BEvent.messageStatusDelivered cid mid now]
      ∧ (markMessageReadRun (some cid) (some mid) true (RemoteOutcome.ok d) now).events
        = [BEvent.messageStatusRead cid mid now]
      ∧ (markChannelDeliveredRun uid (some cid) true (RemoteOutcome.ok d) false now).events
        = [BEvent.channelBulkDelivered cid now uid]
      ∧ (markChannelReadRun uid (some cid) true (RemoteOutcome.ok d) now).events
        = [BEvent.channelReadUpdate cid uid now, BEvent.channelBulkRead cid now uid] := by
  intro cid mid uid now d hc hm
  simp [messageDeliveredAckRun, markMessageReadRun, markChannelDeliveredRun,
    markChannelReadRun, jsTruthy, hc, hm]

/-- C8 witness: the backend response carries `delivered_at = 999` and
`read_at = 998`, yet the broadcast timestamps are the relay clock 7. -/
theorem ack_broadcast_timestamp_is_relay_clock_witness :
    (1 : Nat) ≠ 0 ∧ (2 : Nat) ≠ 0
    ∧ (messageDeliveredAckRun (some 1) (some 2) true
        (RemoteOutcome.ok ⟨some 999, some 998⟩) 7).events
      = [BEvent.messageStatusDelivered 1 2 7] := by
  refine ⟨by decide, by decide, ?_⟩
  exact (ack_broadcast_timestamp_is_relay_clock 1 2 3 7 ⟨some 999, some 998⟩
    (by decide) (by decide)).1

/-- C9: on every successful `leaveGroup`, besides unsubscribing the leaving
socket from the channel room and emitting `userLeftGroup` to the remaining
room members (a remaining member `w` receives it, the leaver does not), the
relay sends a `channelDeleted` event to the leaving user's own socket, and
the caller gets the success reply after exactly one remote call. -/
theorem leaveGroup_notifies_room_and_deletes_for_leaver
    (st : IoState) (sid uid w cid : Nat) (d : RemoteData)
    (hc : cid ≠ 0)
    (hnd : (st.rooms (JsKey.chan cid)).Nodup)
    (hw : w ∈ st.rooms (JsKey.chan cid)) (hws : w ≠ sid)
    (hdeliv : st.delivered = []) :
    ¬ (sid ∈ (leaveGroupRun st sid uid (some cid) true
        (RemoteOutcome.ok d)).rooms (JsKey.chan cid))
    ∧ (w, BEvent.userLeftGroup cid uid)
        ∈ (leaveGroupRun st sid uid (some cid) true (RemoteOutcome.ok d)).delivered
    ∧ (sid, BEvent.channelDeleted cid)
        ∈ (leaveGroupRun st sid uid (some cid) true (RemoteOutcome.ok d)).delivered
    ∧ ¬ ((sid, BEvent.userLeftGroup cid uid)
        ∈ (leaveGroupRun st sid uid (some cid) true (RemoteOutcome.ok d)).delivered)
    ∧ (leaveGroupRun st sid uid (some cid) true (RemoteOutcome.ok d)).replies
        = st.replies ++ [Reply.ok]
    ∧ (leaveGroupRun st sid uid (some cid) true (RemoteOutcome.ok d)).calls
        = st.calls ++ [RCall.leftChat cid] := by
  have htr : jsTruthy (some cid) = true := by simp [jsTruthy, hc]
  have hrun : leaveGroupRun st sid uid (some cid) true (RemoteOutcome.ok d)
      = ((((st.call (RCall.leftChat cid)).leave sid (JsKey.chan cid)).emitRoomExcept sid
            (JsKey.chan cid) (BEvent.userLeftGroup cid uid)).reply Reply.ok).emitSocket sid
          (BEvent.channelDeleted cid) := by
    unfold leaveGroupRun
    rw [htr]
    simp
  rw [hrun]
  simp only [IoState.call, IoState.leave, IoState.emitRoomExcept, IoState.reply,
    IoState.emitSocket, hdeliv, List.nil_append]
  refine ⟨?_, ?_, ?_, ?_, by trivial, by trivial⟩
  · simp only [eq_self_iff_true, if_true]
    intro hmem
    exact ((List.Nodup.mem_erase_iff hnd).1 hmem).1 rfl
  · refine List.mem_append.2 (Or.inl ?_)
    refine List.mem_map.2 ⟨w, ?_, rfl⟩
    simp only [eq_self_iff_true, if_true]
    rw [List.mem_filter]
    exact ⟨(List.mem_erase_of_ne hws).2 hw, by simpa using hws⟩
  · exact List.mem_append.2 (Or.inr (by simp))
  · intro hmem
    rcases List.mem_append.1 hmem with hmem | hmem
    · rcases List.mem_map.1 hmem with ⟨n, hn, heq⟩
      have hns : n = sid := by
        have := congrArg Prod.fst heq
        simpa using this
      rw [List.mem_filter] at hn
      rw [hns] at hn
      simpa using hn.2
    · simp at hmem

/-- C9 witness: the leaveGroup theorem applied at a concrete state — room
`channel_9` holds sockets 4 (the leaver) and 6. -/
theorem leaveGroup_notifies_room_and_deletes_for_leaver_witness :
    (9 : Nat) ≠ 0
    ∧ ¬ (4 ∈ (leaveGroupRun
        ⟨⟨[]⟩, [4, 6], (fun k => if k = JsKey.chan 9 then [4, 6] else []), [], [], []⟩
        4 2 (some 9) true (RemoteOutcome.ok ⟨none, none⟩)).rooms (JsKey.chan 9)) := by
  refine ⟨by decide, ?_⟩
  exact (leaveGroup_notifies_room_and_deletes_for_leaver
    ⟨⟨[]⟩, [4, 6], (fun k => if k = JsKey.chan 9 then [4, 6] else []), [], [], []⟩
    4 2 6 9 ⟨none, none⟩ (by decide) (by decide) (by decide) (by decide) rfl).1

/-- C10: a `removeMembersFromGroup` command (revision of
`src/unnamed/part_002`) whose `userIdsToRemove` list contains the calling
user's own id is answered `{success:false, error:"Cannot remove yourself."}`
with no remote call issued and the registry, room projections and delivery
log unchanged — the result is exactly the input state plus that one reply. -/
theorem removeMembers_self_removal_guard
    (st : IoState) (uid cid : Nat) (uids : List Nat) (rOk : Bool)
    (rMsg : Option String) (fr : Option ChannelSnapshot)
    (hc : cid ≠ 0) (hself : uid ∈ uids) :
    removeMembersFromGroupRun st uid (some cid) uids rOk rMsg fr
      = st.reply (Reply.err "Cannot remove yourself.")
    ∧ (removeMembersFromGroupRun st uid (some cid) uids rOk rMsg fr).calls = st.calls
    ∧ (removeMembersFromGroupRun st uid (some cid) uids rOk rMsg fr).reg = st.reg
    ∧ (removeMembersFromGroupRun st uid (some cid) uids rOk rMsg fr).rooms = st.rooms
    ∧ (removeMembersFromGroupRun st uid (some cid) uids rOk rMsg fr).delivered
        = st.delivered := by
  have htr : jsTruthy (some cid) = true := by simp [jsTruthy, hc]
  have hne : uids ≠ [] := List.ne_nil_of_mem hself
  have hmain : removeMembersFromGroupRun st uid (some cid) uids rOk rMsg fr
      = st.reply (Reply.err "Cannot remove yourself.") := by
    unfold removeMembersFromGroupRun
    rw [htr]
    simp only [Bool.not_true, Bool.false_eq_true, if_false]
    rw [if_neg hne, if_pos hself]
  exact ⟨hmain, by rw [hmain]; rfl, by rw [hmain]; rfl, by rw [hmain]; rfl,
    by rw [hmain]; rfl⟩

/-- C10 witness: user 2 attempts to remove users 2 and 3 from channel 9. -/
theorem removeMembers_self_removal_guard_witness :
    (9 : Nat) ≠ 0 ∧ (2 : Nat) ∈ [2, 3]
    ∧ removeMembersFromGroupRun ⟨⟨[]⟩, [], (fun _ => []), [], [], []⟩ 2 (some 9)
        [2, 3] true none none
      = IoState.reply ⟨⟨[]⟩, [], (fun _ => []), [], [], []⟩
          (Reply.err "Cannot remove yourself.") := by
  refine ⟨by decide, by decide, ?_⟩
  exact (removeMembers_self_removal_guard ⟨⟨[]⟩, [], (fun _ => []), [], [], []⟩
    2 9 [2, 3] true none none (by decide) (by decide)).1

end NodeChat
